import Mathlib

/-!
Verification of `q2_chemistree/_fingerprint.py`: a shallow embedding of the
process runner (`run_command`), the artifact factory (`artifactory`) and the
three stage functions (`compute_fragmentation_trees`,
`rerank_molecular_formulas`, `predict_fingerprints`), together with theorems
settling the specification claims about them.

Modelling conventions:
- Python strings are `String`; Python ints are `Int` (rendered with
  `toString`, which agrees with Python `str` on integers); the float
  `zodiac_threshold` is kept as its already-rendered decimal string, since no
  claim inspects its value.
- The process-wide state touched by the module — the `_JAVA_OPTIONS`
  environment variable and filesystem existence — is an explicit `World`
  record threaded through the functions.
- Exceptions are `Except Err`; side effects relevant to the claims (handle
  construction, environment writes, subprocess spawns) are recorded in an
  event trace returned alongside the result, in the order they occur.
- The outcome of the external process is nondeterministic from this module's
  point of view, so the child's exit status is an explicit parameter
  (`exitCode`); `subprocess.run(..., check=True)` raises
  `CalledProcessError` exactly when it is nonzero.
- The directory-format classes (`MGFDirFmt`, `SiriusDirFmt`, `ZodiacDirFmt`,
  `CSIDirFmt`) live in `_semantics.py`, outside this module; they are
  path-bearing handles, modelled by `DirFmt` with the two accessors the
  module uses (`.path` and `.get_path()`).  The zero-argument constructor
  passed to `artifactory` is modelled by supplying the handle it would
  construct; the construction itself is recorded as a trace event.
-/

namespace Chemistree

/-- Two-argument `os.path.join` with the POSIX separator, exactly as
`posixpath.join(a, b)`: an absolute second component replaces the first;
otherwise a separator is inserted unless the first component is empty or
already ends with one. -/
def joinPath (a b : String) : String :=
  if b.data.head? = some '/' then b
  else if a = "" ∨ a.data.getLast? = some '/' then a ++ b
  else a ++ "/" ++ b

/-- A directory-format handle (external collaborator from `_semantics.py`):
`path` is the `.path` attribute (as `str(x.path)`), `get_path` is the value
returned by the `get_path()` method. -/
structure DirFmt where
  path : String
  get_path : String
deriving Repr, DecidableEq

/-- The process-wide mutable state the module touches: the `_JAVA_OPTIONS`
environment variable (`none` = unset) and the set of existing filesystem
paths (as a list, for decidability). -/
structure World where
  javaOptions : Option String
  fsExists : List String
deriving Repr, DecidableEq

/-- Observable side effects, in order of occurrence: construction of the
result handle by the zero-argument constructor, a write to the
`_JAVA_OPTIONS` environment variable, and the spawn of a child process with
a command line and a stdout-capture file. -/
inductive Event where
  | constructHandle : Event
  | setEnv : String → Event
  | spawn : List String → String → Event
deriving Repr, DecidableEq

/-- The exceptions the module raises: `OSError("SIRIUS could not be
located")` from `artifactory`, and `subprocess.CalledProcessError` (carrying
the child's exit code) from `subprocess.run(..., check=True)`. -/
inductive Err where
  | osError : String → Err
  | calledProcessError : Nat → Err
deriving Repr, DecidableEq

/-- `run_command(cmd, output_fp, verbose=True)` from `_fingerprint.py`:
opens `output_fp` as the child's stdout sink and runs `subprocess.run(cmd,
stdout=output_f, check=True)`, which raises `CalledProcessError` carrying
the exit status when it is nonzero and returns normally when it is zero.
The `verbose` echo goes to the operator's console and touches no modelled
state.  The child is spawned exactly once (no retry); the spawn is the
single trace event. -/
def run_command (cmd : List String) (output_fp : String) (verbose : Bool)
    (exitCode : Nat) : Except Err Unit × List Event :=
  (if exitCode = 0 then Except.ok () else Except.error (Err.calledProcessError exitCode),
   [Event.spawn cmd output_fp])

/-- `artifactory(sirius_path, parameters, java_flags=None, constructor=None)`
from `_fingerprint.py`, in source order:
1. `artifact = constructor()` — the handle is constructed first;
2. `if not os.path.exists(sirius_path): raise OSError(...)`;
3. `sirius = os.path.join(sirius_path, 'sirius')`;
4. `initial_flags = os.environ.get('_JAVA_OPTIONS', '')`, and if
   `java_flags is not None` write back `initial_flags + ' ' + java_flags`;
5. run `[sirius, '-o', artifact.get_path()] + parameters` with stdout sent
   to `os.path.join(str(artifact.path), 'stdout.txt')`;
6. only if the run returned normally and `java_flags is not None`, restore
   `os.environ['_JAVA_OPTIONS'] = initial_flags`;
7. return the handle.
Returns the result, the final world, and the event trace. -/
def artifactory (sirius_path : String) (parameters : List String)
    (java_flags : Option String) (constructor : DirFmt) (exitCode : Nat)
    (w : World) : Except Err DirFmt × World × List Event :=
  let artifact := constructor
  if sirius_path ∈ w.fsExists then
    let sirius := joinPath sirius_path "sirius"
    let initial_flags := w.javaOptions.getD ""
    let w1 : World :=
      match java_flags with
      | some f => ⟨some (initial_flags ++ " " ++ f), w.fsExists⟩
      | none => w
    let ev1 : List Event :=
      match java_flags with
      | some f => [Event.constructHandle, Event.setEnv (initial_flags ++ " " ++ f)]
      | none => [Event.constructHandle]
    let cmdsir := [sirius, "-o", artifact.get_path] ++ parameters
    let run := run_command cmdsir (joinPath artifact.path "stdout.txt") true exitCode
    match run.1 with
    | Except.error e => (Except.error e, w1, ev1 ++ run.2)
    | Except.ok _ =>
      match java_flags with
      | some _ =>
        (Except.ok artifact, ⟨some initial_flags, w1.fsExists⟩,
         ev1 ++ run.2 ++ [Event.setEnv initial_flags])
      | none => (Except.ok artifact, w1, ev1 ++ run.2)
  else
    (Except.error (Err.osError "SIRIUS could not be located"), w, [Event.constructHandle])

/-- The `if/elif` chain at the top of `compute_fragmentation_trees`
(lines 96-99): the local variable `ionization_flag`, as an `Option` since an
unrecognized mode leaves it unassigned.  The source never reads this
variable afterwards. -/
def ionization_flag (ionization_mode : String) : Option String :=
  if ionization_mode = "auto" ∨ ionization_mode = "positive" then
    some "--auto-charge"
  else if ionization_mode = "negative" then
    some "--ion=[M-H]-"
  else
    none

/-- The `params` list assembled by `compute_fragmentation_trees`
(lines 101-111), verbatim.  Note that the source builds this list without
referencing the `ionization_flag` local variable. -/
def compute_fragmentation_trees_params (features : DirFmt) (ppm_max : Int)
    (profile : String) (tree_timeout : Int) (maxmz : Int) (n_jobs : Int)
    (num_candidates : Int) (database : String) : List String :=
  ["--quiet",
   "--initial-compound-buffer", toString (1 : Nat),
   "--max-compound-buffer", toString (32 : Nat), "--profile", profile,
   "--database", database,
   "--candidates", toString num_candidates,
   "--processors", toString n_jobs,
   "--trust-ion-prediction",
   "--maxmz", toString maxmz,
   "--tree-timeout", toString tree_timeout,
   "--ppm-max", toString ppm_max,
   joinPath features.path "features.mgf"]

/-- `compute_fragmentation_trees` from `_fingerprint.py`: computes the
(unused) `ionization_flag` local, assembles `params` and delegates to
`artifactory(sirius_path, params, java_flags, SiriusDirFmt)`.  The
`SiriusDirFmt` constructor is modelled by the handle it constructs plus the
trace event inside `artifactory`. -/
def compute_fragmentation_trees (sirius_path : String) (features : DirFmt)
    (ppm_max : Int) (profile : String) (tree_timeout : Int) (maxmz : Int)
    (n_jobs : Int) (num_candidates : Int) (database : String)
    (ionization_mode : String) (java_flags : Option String)
    (constructor : DirFmt) (exitCode : Nat) (w : World) :
    Except Err DirFmt × World × List Event :=
  let _flag := ionization_flag ionization_mode
  artifactory sirius_path
    (compute_fragmentation_trees_params features ppm_max profile tree_timeout
      maxmz n_jobs num_candidates database)
    java_flags constructor exitCode w

/-- The `params` list assembled by `rerank_molecular_formulas`
(lines 147-151), verbatim; `zodiac_threshold` stands for the decimal
rendering `str(zodiac_threshold)` of the float argument. -/
def rerank_molecular_formulas_params (fragmentation_trees : DirFmt)
    (features : DirFmt) (zodiac_threshold : String) (n_jobs : Int) :
    List String :=
  ["--zodiac", "--sirius",
   fragmentation_trees.get_path,
   "--thresholdfilter", zodiac_threshold,
   "--processors", toString n_jobs,
   "--spectra", joinPath features.path "features.mgf"]

/-- `rerank_molecular_formulas` from `_fingerprint.py`: assembles `params`
and delegates to `artifactory(sirius_path, params, java_flags,
ZodiacDirFmt)`. -/
def rerank_molecular_formulas (sirius_path : String)
    (fragmentation_trees : DirFmt) (features : DirFmt)
    (zodiac_threshold : String) (n_jobs : Int) (java_flags : Option String)
    (constructor : DirFmt) (exitCode : Nat) (w : World) :
    Except Err DirFmt × World × List Event :=
  artifactory sirius_path
    (rerank_molecular_formulas_params fragmentation_trees features
      zodiac_threshold n_jobs)
    java_flags constructor exitCode w

/-- The `params` list assembled by `predict_fingerprints` (lines 184-186),
verbatim. -/
def predict_fingerprints_params (molecular_formulas : DirFmt) (ppm_max : Int)
    (n_jobs : Int) (fingerid_db : String) : List String :=
  ["--processors", toString n_jobs, "--fingerid",
   "--fingerid-db", fingerid_db, "--ppm-max", toString ppm_max,
   molecular_formulas.get_path]

/-- `predict_fingerprints` from `_fingerprint.py`: assembles `params` and
delegates to `artifactory(sirius_path, params, java_flags, CSIDirFmt)`. -/
def predict_fingerprints (sirius_path : String) (molecular_formulas : DirFmt)
    (ppm_max : Int) (n_jobs : Int) (fingerid_db : String)
    (java_flags : Option String) (constructor : DirFmt) (exitCode : Nat)
    (w : World) : Except Err DirFmt × World × List Event :=
  artifactory sirius_path
    (predict_fingerprints_params molecular_formulas ppm_max n_jobs fingerid_db)
    java_flags constructor exitCode w

deriving instance DecidableEq for Except

/-- C1: the claim says the ionization flag produced from `ionization_mode`
is included in the parameter list passed to the artifact factory.  The
source does map the mode to a flag (the `ionization_flag` local variable),
but the `params` list at lines 101-111 never references that variable, so
the flag is absent from the parameter list; the whole stage call delegates
the flag-free list to `artifactory`.  Evaluated here at
`ionization_mode = "negative"` (and `"auto"`/`"positive"`): the mapping
holds, yet neither `--ion=[M-H]-` nor `--auto-charge` occurs in the
assembled parameters. -/
theorem C1_ionization_flag_computed_but_dropped :
    ionization_flag "negative" = some "--ion=[M-H]-" ∧
    ionization_flag "auto" = some "--auto-charge" ∧
    ionization_flag "positive" = some "--auto-charge" ∧
    "--ion=[M-H]-" ∉ compute_fragmentation_trees_params
        (DirFmt.mk "/data/feats" "/data/feats") 10 "orbitrap" 1600 600 2 75 "all" ∧
    "--auto-charge" ∉ compute_fragmentation_trees_params
        (DirFmt.mk "/data/feats" "/data/feats") 10 "orbitrap" 1600 600 2 75 "all" ∧
    compute_fragmentation_trees "/opt/sirius" (DirFmt.mk "/data/feats" "/data/feats") 10
        "orbitrap" 1600 600 2 75 "all" "negative" none (DirFmt.mk "/tmp/out" "/tmp/out") 0
        (World.mk none ["/opt/sirius"])
      = artifactory "/opt/sirius"
          (compute_fragmentation_trees_params (DirFmt.mk "/data/feats" "/data/feats") 10
            "orbitrap" 1600 600 2 75 "all")
          none (DirFmt.mk "/tmp/out" "/tmp/out") 0 (World.mk none ["/opt/sirius"]) := by
  exact ⟨rfl, rfl, rfl, by decide, by decide, rfl⟩

/-- C2 counterexample: the claim says the executable-root existence check
happens before the result handle is constructed.  At this concrete input
(a nonexistent `sirius_path`), the tool-not-found error is indeed raised,
but the handle-construction event is in the trace: `constructor()` runs at
line 31, before the existence check at line 32. -/
theorem C2_counterexample_handle_constructed_before_check :
    (artifactory "/opt/sirius" ["--quiet"] (some "-Xmx4g") (DirFmt.mk "/tmp/out" "/tmp/out") 0
      (World.mk (some "-Dfoo=bar") [])).1
      = Except.error (Err.osError "SIRIUS could not be located") ∧
    Event.constructHandle ∈
      (artifactory "/opt/sirius" ["--quiet"] (some "-Xmx4g") (DirFmt.mk "/tmp/out" "/tmp/out") 0
        (World.mk (some "-Dfoo=bar") [])).2.2 := by
  decide

/-- C2 (amended): with a nonexistent executable root, the tool-not-found
error is raised before any subprocess is spawned and before the environment
variable is touched (the world is unchanged), but the result handle has
already been constructed — construction precedes the existence check. -/
theorem C2_tool_not_found_after_construction (p : String) (ps : List String)
    (jf : Option String) (h : DirFmt) (e : Nat) (w : World)
    (hmem : p ∉ w.fsExists) :
    (artifactory p ps jf h e w).1
      = Except.error (Err.osError "SIRIUS could not be located") ∧
    (artifactory p ps jf h e w).2.1 = w ∧
    (∀ cmd fp, Event.spawn cmd fp ∉ (artifactory p ps jf h e w).2.2) ∧
    (∀ v, Event.setEnv v ∉ (artifactory p ps jf h e w).2.2) ∧
    Event.constructHandle ∈ (artifactory p ps jf h e w).2.2 := by
  simp [artifactory, hmem]

/-- C2 witness: the amended theorem applied at a concrete nonexistent
root. -/
theorem C2_amended_witness :
    (artifactory "/opt/sirius" ["--quiet"] (some "-Xmx4g") (DirFmt.mk "/tmp/out" "/tmp/out") 0
      (World.mk (some "-Dfoo=bar") [])).1
      = Except.error (Err.osError "SIRIUS could not be located") ∧
    (artifactory "/opt/sirius" ["--quiet"] (some "-Xmx4g") (DirFmt.mk "/tmp/out" "/tmp/out") 0
      (World.mk (some "-Dfoo=bar") [])).2.1 = World.mk (some "-Dfoo=bar") [] := by
  have h := C2_tool_not_found_after_construction "/opt/sirius" ["--quiet"] (some "-Xmx4g")
    (DirFmt.mk "/tmp/out" "/tmp/out") 0 (World.mk (some "-Dfoo=bar") []) (by decide)
  exact ⟨h.1, h.2.1⟩

/-- C3: when extra runtime flags are supplied, the executable root exists
and the external process succeeds (exit code 0), the call returns the
handle and `_JAVA_OPTIONS` again equals its pre-call value, not the
concatenated value. -/
theorem C3_env_restored_on_success (p : String) (ps : List String) (f v : String)
    (h : DirFmt) (w : World) (hmem : p ∈ w.fsExists) (hv : w.javaOptions = some v) :
    (artifactory p ps (some f) h 0 w).1 = Except.ok h ∧
    ((artifactory p ps (some f) h 0 w).2.1).javaOptions = some v := by
  simp [artifactory, run_command, hmem, hv]

/-- C3 witness: extra flags `-Xmx4g` over pre-existing value `-Dfoo=bar`;
after the successful call the variable equals `-Dfoo=bar` again. -/
theorem C3_witness :
    ((artifactory "/opt/sirius" ["--quiet"] (some "-Xmx4g") (DirFmt.mk "/tmp/out" "/tmp/out") 0
      (World.mk (some "-Dfoo=bar") ["/opt/sirius"])).2.1).javaOptions = some "-Dfoo=bar" :=
  (C3_env_restored_on_success "/opt/sirius" ["--quiet"] "-Xmx4g" "-Dfoo=bar"
    (DirFmt.mk "/tmp/out" "/tmp/out") (World.mk (some "-Dfoo=bar") ["/opt/sirius"])
    (by decide) rfl).2

/-- C4: when extra runtime flags are supplied and the process runner raises
(nonzero exit code), the restoration step at lines 43-44 is skipped: the
error propagates and `_JAVA_OPTIONS` still holds the mutated value — the
pre-call value with a space and the extra flags appended. -/
theorem C4_env_leaked_on_failure (p : String) (ps : List String) (f : String)
    (h : DirFmt) (e : Nat) (w : World) (hmem : p ∈ w.fsExists) (he : e ≠ 0) :
    (artifactory p ps (some f) h e w).1 = Except.error (Err.calledProcessError e) ∧
    ((artifactory p ps (some f) h e w).2.1).javaOptions
      = some (w.javaOptions.getD "" ++ " " ++ f) := by
  simp [artifactory, run_command, hmem, he]

/-- C4 witness: exit code 3 with extra flags `-Xmx4g` over `-Dfoo=bar`
leaves `_JAVA_OPTIONS` at the mutated value `-Dfoo=bar -Xmx4g`. -/
theorem C4_witness :
    (artifactory "/opt/sirius" ["--quiet"] (some "-Xmx4g") (DirFmt.mk "/tmp/out" "/tmp/out") 3
      (World.mk (some "-Dfoo=bar") ["/opt/sirius"])).1
      = Except.error (Err.calledProcessError 3) ∧
    ((artifactory "/opt/sirius" ["--quiet"] (some "-Xmx4g") (DirFmt.mk "/tmp/out" "/tmp/out") 3
      (World.mk (some "-Dfoo=bar") ["/opt/sirius"])).2.1).javaOptions
      = some "-Dfoo=bar -Xmx4g" := by
  have h := C4_env_leaked_on_failure "/opt/sirius" ["--quiet"] "-Xmx4g"
    (DirFmt.mk "/tmp/out" "/tmp/out") 3 (World.mk (some "-Dfoo=bar") ["/opt/sirius"])
    (by decide) (by decide)
  refine ⟨h.1, ?_⟩
  rw [h.2]
  decide

/-- C5 counterexample: the claim says the command passed to the process
runner equals `[p ++ "/sirius", "-o", h.get_path] ++ ps` for every call.
With a root path carrying a trailing separator, `os.path.join` does not
insert another separator: the spawned command starts with
`/opt/sirius/sirius`, whereas the claim's formula gives
`/opt/sirius//sirius`. -/
theorem C5_counterexample_trailing_separator :
    (artifactory "/opt/sirius/" ["--quiet"] none (DirFmt.mk "/tmp/out" "/tmp/out") 0
      (World.mk (some "-Dfoo=bar") ["/opt/sirius/"])).2.2
      = [Event.constructHandle,
         Event.spawn ["/opt/sirius/sirius", "-o", "/tmp/out", "--quiet"] "/tmp/out/stdout.txt"] ∧
    (["/opt/sirius/sirius", "-o", "/tmp/out", "--quiet"] : List String)
      ≠ ["/opt/sirius/" ++ "/sirius", "-o", "/tmp/out", "--quiet"] := by
  decide

/-- C5 (amended): the command passed to the process runner is
`[os.path.join(p, "sirius"), "-o", h.get_path] ++ ps` and its diagnostic
output goes to `os.path.join(h.path, "stdout.txt")`; the join equals
`p ++ "/sirius"` whenever `p` is nonempty and does not already end in a
separator. -/
theorem C5_command_shape (p : String) (ps : List String) (jf : Option String)
    (h : DirFmt) (e : Nat) (w : World) (hmem : p ∈ w.fsExists) :
    Event.spawn ([joinPath p "sirius", "-o", h.get_path] ++ ps)
      (joinPath h.path "stdout.txt") ∈ (artifactory p ps jf h e w).2.2 ∧
    (p ≠ "" → ¬ p.data.getLast? = some '/' → joinPath p "sirius" = p ++ "/sirius") := by
  constructor
  · rcases jf with _ | f <;> by_cases he : e = 0 <;>
      simp [artifactory, run_command, hmem, he]
  · intro hne hlast
    simp [joinPath, hne, hlast, String.append_assoc]

/-- C5 witness: the amended theorem applied at a concrete root without a
trailing separator. -/
theorem C5_witness :
    Event.spawn ([joinPath "/opt/sirius" "sirius", "-o", "/tmp/out"] ++ ["--quiet"])
      (joinPath "/tmp/out" "stdout.txt")
      ∈ (artifactory "/opt/sirius" ["--quiet"] none (DirFmt.mk "/tmp/out" "/tmp/out") 0
          (World.mk none ["/opt/sirius"])).2.2 ∧
    joinPath "/opt/sirius" "sirius" = "/opt/sirius" ++ "/sirius" := by
  have h := C5_command_shape "/opt/sirius" ["--quiet"] none (DirFmt.mk "/tmp/out" "/tmp/out") 0
    (World.mk none ["/opt/sirius"]) (by decide)
  exact ⟨h.1, h.2 (by decide) (by decide)⟩

/-- C6: the process runner raises an execution failure carrying the child's
exit code exactly when it is nonzero, returns normally when it is zero, and
spawns the child exactly once (no retry). -/
theorem C6_nonzero_exit_raises (cmd : List String) (fp : String) (vb : Bool) (e : Nat) :
    (e ≠ 0 → (run_command cmd fp vb e).1 = Except.error (Err.calledProcessError e)) ∧
    (e = 0 → (run_command cmd fp vb e).1 = Except.ok ()) ∧
    (run_command cmd fp vb e).2 = [Event.spawn cmd fp] := by
  refine ⟨fun he => by simp [run_command, he], fun he => by simp [run_command, he], rfl⟩

/-- C6 witness: exit code 3 raises carrying 3; exit code 0 returns. -/
theorem C6_witness :
    (run_command ["/opt/sirius/sirius"] "/tmp/out/stdout.txt" true 3).1
      = Except.error (Err.calledProcessError 3) ∧
    (run_command ["/opt/sirius/sirius"] "/tmp/out/stdout.txt" true 0).1 = Except.ok () :=
  ⟨(C6_nonzero_exit_raises ["/opt/sirius/sirius"] "/tmp/out/stdout.txt" true 3).1 (by decide),
   (C6_nonzero_exit_raises ["/opt/sirius/sirius"] "/tmp/out/stdout.txt" true 0).2.1 rfl⟩

/-- C7: for each of the three stage functions, the assembled parameter list
is a pure deterministic function of the stage's typed inputs: identical
input tuples produce identical flag sequences. -/
theorem C7_params_deterministic
    (a b : DirFmt × Int × String × Int × Int × Int × Int × String)
    (c d : DirFmt × DirFmt × String × Int)
    (u v : DirFmt × Int × Int × String)
    (hab : a = b) (hcd : c = d) (huv : u = v) :
    compute_fragmentation_trees_params a.1 a.2.1 a.2.2.1 a.2.2.2.1 a.2.2.2.2.1
        a.2.2.2.2.2.1 a.2.2.2.2.2.2.1 a.2.2.2.2.2.2.2
      = compute_fragmentation_trees_params b.1 b.2.1 b.2.2.1 b.2.2.2.1 b.2.2.2.2.1
        b.2.2.2.2.2.1 b.2.2.2.2.2.2.1 b.2.2.2.2.2.2.2 ∧
    rerank_molecular_formulas_params c.1 c.2.1 c.2.2.1 c.2.2.2
      = rerank_molecular_formulas_params d.1 d.2.1 d.2.2.1 d.2.2.2 ∧
    predict_fingerprints_params u.1 u.2.1 u.2.2.1 u.2.2.2
      = predict_fingerprints_params v.1 v.2.1 v.2.2.1 v.2.2.2 := by
  subst hab
  subst hcd
  subst huv
  exact ⟨rfl, rfl, rfl⟩

/-- C7 witness: the determinism theorem applied at concrete equal input
tuples for all three stages. -/
theorem C7_witness :
    compute_fragmentation_trees_params (DirFmt.mk "/f" "/f") 10 "orbitrap" 1600 600 2 75 "all"
      = compute_fragmentation_trees_params (DirFmt.mk "/f" "/f") 10 "orbitrap" 1600 600 2 75
          "all" ∧
    rerank_molecular_formulas_params (DirFmt.mk "/s" "/s") (DirFmt.mk "/f" "/f") "0.95" 2
      = rerank_molecular_formulas_params (DirFmt.mk "/s" "/s") (DirFmt.mk "/f" "/f") "0.95" 2 ∧
    predict_fingerprints_params (DirFmt.mk "/z" "/z") 10 2 "pubchem"
      = predict_fingerprints_params (DirFmt.mk "/z" "/z") 10 2 "pubchem" :=
  C7_params_deterministic
    (DirFmt.mk "/f" "/f", 10, "orbitrap", 1600, 600, 2, 75, "all")
    (DirFmt.mk "/f" "/f", 10, "orbitrap", 1600, 600, 2, 75, "all")
    (DirFmt.mk "/s" "/s", DirFmt.mk "/f" "/f", "0.95", 2)
    (DirFmt.mk "/s" "/s", DirFmt.mk "/f" "/f", "0.95", 2)
    (DirFmt.mk "/z" "/z", 10, 2, "pubchem")
    (DirFmt.mk "/z" "/z", 10, 2, "pubchem")
    rfl rfl rfl

/-- C8: the parameter list of `compute_fragmentation_trees` contains the
buffer-size constants `"1"` and `"32"` and ends with
`["--ppm-max", str(ppm_max), <path to features.mgf>]`; in particular, at
`ppm_max = 10` it ends with `["--ppm-max", "10", "/data/feats/features.mgf"]`. -/
theorem C8_params_shape (feats : DirFmt) (ppm tt mz nj nc : Int)
    (profile database : String) :
    ("1" : String) ∈ compute_fragmentation_trees_params feats ppm profile tt mz nj nc database ∧
    ("32" : String) ∈ compute_fragmentation_trees_params feats ppm profile tt mz nj nc database ∧
    List.IsSuffix ["--ppm-max", toString ppm, joinPath feats.path "features.mgf"]
      (compute_fragmentation_trees_params feats ppm profile tt mz nj nc database) ∧
    List.IsSuffix ["--ppm-max", "10", "/data/feats/features.mgf"]
      (compute_fragmentation_trees_params (DirFmt.mk "/data/feats" "/data/feats") 10 "orbitrap"
        1600 600 2 75 "all") := by
  refine ⟨?_, ?_, ?_, ?_⟩
  · have h1 : ("1" : String) = toString (1 : Nat) := rfl
    rw [h1]
    simp [compute_fragmentation_trees_params]
  · have h32 : ("32" : String) = toString (32 : Nat) := rfl
    rw [h32]
    simp [compute_fragmentation_trees_params]
  · exact ⟨["--quiet", "--initial-compound-buffer", toString (1 : Nat),
      "--max-compound-buffer", toString (32 : Nat), "--profile", profile,
      "--database", database, "--candidates", toString nc,
      "--processors", toString nj, "--trust-ion-prediction",
      "--maxmz", toString mz, "--tree-timeout", toString tt], rfl⟩
  · exact ⟨["--quiet", "--initial-compound-buffer", "1",
      "--max-compound-buffer", "32", "--profile", "orbitrap",
      "--database", "all", "--candidates", "75",
      "--processors", "2", "--trust-ion-prediction",
      "--maxmz", "600", "--tree-timeout", "1600"], by decide⟩

/-- C9: an ionization mode outside auto/positive/negative raises nothing:
the `ionization_flag` local is left unassigned (`none`), the parameter list
is assembled as usual, and the stage delegates to the artifact factory
exactly as it would with a recognized mode. -/
theorem C9_unrecognized_mode_silent (mode : String) (h1 : mode ≠ "auto")
    (h2 : mode ≠ "positive") (h3 : mode ≠ "negative") :
    ionization_flag mode = none ∧
    ∀ (p : String) (feats : DirFmt) (ppm tt mz nj nc : Int)
      (profile database : String) (jf : Option String) (ctor : DirFmt)
      (e : Nat) (w : World),
      compute_fragmentation_trees p feats ppm profile tt mz nj nc database mode jf ctor e w
        = artifactory p
            (compute_fragmentation_trees_params feats ppm profile tt mz nj nc database)
            jf ctor e w ∧
      compute_fragmentation_trees p feats ppm profile tt mz nj nc database mode jf ctor e w
        = compute_fragmentation_trees p feats ppm profile tt mz nj nc database "auto"
            jf ctor e w := by
  refine ⟨by simp [ionization_flag, h1, h2, h3], ?_⟩
  intro p feats ppm tt mz nj nc profile database jf ctor e w
  exact ⟨rfl, rfl⟩

/-- C9 witness: the unrecognized mode `"foo"` produces no flag and the call
behaves exactly like a call with mode `"auto"`. -/
theorem C9_witness :
    ionization_flag "foo" = none ∧
    compute_fragmentation_trees "/opt/sirius" (DirFmt.mk "/f" "/f") 10 "orbitrap" 1600 600 2 75
        "all" "foo" none (DirFmt.mk "/o" "/o") 0 (World.mk none ["/opt/sirius"])
      = compute_fragmentation_trees "/opt/sirius" (DirFmt.mk "/f" "/f") 10 "orbitrap" 1600 600
        2 75 "all" "auto" none (DirFmt.mk "/o" "/o") 0 (World.mk none ["/opt/sirius"]) := by
  have h := C9_unrecognized_mode_silent "foo" (by decide) (by decide) (by decide)
  exact ⟨h.1, (h.2 "/opt/sirius" (DirFmt.mk "/f" "/f") 10 1600 600 2 75 "orbitrap" "all" none
    (DirFmt.mk "/o" "/o") 0 (World.mk none ["/opt/sirius"])).2⟩

/-- C10: with `_JAVA_OPTIONS` unset and extra flags supplied, the variable
is set during the call to a single space followed by the flags, and a
successful call leaves it set to the empty string rather than unset; with
no extra flags supplied, the variable is never written on any path. -/
theorem C10_env_unset_behavior :
    (∀ (p : String) (ps : List String) (f : String) (h : DirFmt) (e : Nat) (w : World),
       w.javaOptions = none → p ∈ w.fsExists →
       Event.setEnv (" " ++ f) ∈ (artifactory p ps (some f) h e w).2.2 ∧
       (e = 0 → ((artifactory p ps (some f) h e w).2.1).javaOptions = some "")) ∧
    (∀ (p : String) (ps : List String) (h : DirFmt) (e : Nat) (w : World),
       (artifactory p ps none h e w).2.1 = w ∧
       (∀ v, Event.setEnv v ∉ (artifactory p ps none h e w).2.2)) := by
  constructor
  · intro p ps f h e w hn hmem
    by_cases he : e = 0 <;> simp [artifactory, run_command, hmem, hn, he]
  · intro p ps h e w
    by_cases hm : p ∈ w.fsExists <;> by_cases he : e = 0 <;>
      simp [artifactory, run_command, hm, he]

/-- C10 witness: with `_JAVA_OPTIONS` unset, flags `-Xmx4g` are written as
`" -Xmx4g"` during the call and the variable equals the empty string after
success; with no flags the world is untouched. -/
theorem C10_witness :
    Event.setEnv (" " ++ "-Xmx4g") ∈ (artifactory "/opt/sirius" [] (some "-Xmx4g")
      (DirFmt.mk "/t" "/t") 0 (World.mk none ["/opt/sirius"])).2.2 ∧
    ((artifactory "/opt/sirius" [] (some "-Xmx4g") (DirFmt.mk "/t" "/t") 0
      (World.mk none ["/opt/sirius"])).2.1).javaOptions = some "" ∧
    (artifactory "/opt/sirius" [] none (DirFmt.mk "/t" "/t") 0
      (World.mk none ["/opt/sirius"])).2.1 = World.mk none ["/opt/sirius"] := by
  have h1 := C10_env_unset_behavior.1 "/opt/sirius" [] "-Xmx4g" (DirFmt.mk "/t" "/t") 0
    (World.mk none ["/opt/sirius"]) rfl (by decide)
  have h2 := C10_env_unset_behavior.2 "/opt/sirius" [] (DirFmt.mk "/t" "/t") 0
    (World.mk none ["/opt/sirius"])
  exact ⟨h1.1, h1.2 rfl, h2.1⟩

end Chemistree
